import Mathlib

/-!
Shallow embedding of the chat core of the "Full-Stack Gemini Chatbot with
PDF Integration" repository: the chat orchestration handler
(`src/app/api/chat/route.ts`, function `POST`), the history reconstruction
handler (`src/app/api/chat-history/route.ts`, function `GET`) and the
client-side history merge (`src/app/chatbot/page.tsx`, `fetchChatHistory`).

External collaborators (the model client, the auth provider, the storage
layer, JSON body parsing) are passed in as explicit inputs: an `Option`
for the resolved caller identity, `Except` values for fallible calls, and
booleans for the storage layer's answer to each insert.  Persistence writes
are recorded as the list of attempted inserts, each paired with the
storage layer's reported success, since the handlers never branch on that
answer except to log.

JavaScript strings are modeled as Lean `String`; the code-unit operations
`.length` and `.substring(0, n)` are modeled on the underlying character
list.  Timestamps are abstracted to `Nat` (the JavaScript code compares
them through `Date.getTime()`).  The JavaScript stable `Array.sort` is
modeled by `List.insertionSort`, which is the stable sort for the given
comparator.
-/

namespace GeminiPdfChat

/-- A JavaScript-level JSON value for the fields of the request body
(`query`, `pdfText`), as the handler inspects them with truthiness tests
and `typeof` checks. -/
inductive JVal where
  | jstr (s : String)
  | jnum (n : Int)
  | jbool (b : Bool)
  | jnull
deriving DecidableEq

/-- JavaScript truthiness of a JSON value. -/
def JVal.truthy : JVal → Bool
  | .jstr s => s ≠ ""
  | .jnum n => n ≠ 0
  | .jbool b => b
  | .jnull => false

/-- `typeof v === 'string'`. -/
def JVal.isStringVal : JVal → Bool
  | .jstr _ => true
  | _ => false

/-- The string payload of a JSON value (only inspected after the string
type check has succeeded; other cases are unreachable in the handler). -/
def JVal.asString : JVal → String
  | .jstr s => s
  | _ => ""

/-- Truthiness of a possibly-absent (`undefined`) field. -/
def optTruthy : Option JVal → Bool
  | none => false
  | some v => v.truthy

/-- `typeof`-is-string of a possibly-absent field (absent is not a string). -/
def optIsString : Option JVal → Bool
  | none => false
  | some v => v.isStringVal

/-- String payload of a possibly-absent field. -/
def optAsString : Option JVal → String
  | none => ""
  | some v => v.asString

/-- JavaScript `s.trim()`: drop whitespace from both ends, modeled
structurally on the character list (Lean's own `String.trim` is
positional and does not reduce in the kernel). -/
def jsTrim (s : String) : String :=
  ⟨((s.data.dropWhile Char.isWhitespace).reverse.dropWhile Char.isWhitespace).reverse⟩

/-- The parsed request body of the chat endpoint: `{ query, pdfText }`,
each field possibly absent. -/
structure ChatBody where
  query : Option JVal
  pdfText : Option JVal
deriving DecidableEq

/-- A thrown JavaScript error; `message` is the `.message` field, with the
empty string standing for an absent/falsy message. -/
structure Exn where
  message : String
deriving DecidableEq

/-- `promptFeedback.blockReason` values of the model client
(`BlockReason.SAFETY`, or any other member of the enum). -/
inductive BlockReason where
  | SAFETY
  | OTHER
deriving DecidableEq

/-- String rendering of a block reason, as interpolated into the handler's
message template. -/
def BlockReason.render : BlockReason → String
  | .SAFETY => "SAFETY"
  | .OTHER => "OTHER"

/-- Candidate `finishReason` values of the model client
(`FinishReason.STOP` is the normal stop; the others are abnormal). -/
inductive FinishReason where
  | STOP
  | SAFETY
  | MAX_TOKENS
  | RECITATION
  | OTHER
deriving DecidableEq

/-- String rendering of a finish reason, as interpolated into the
handler's message template. -/
def FinishReason.render : FinishReason → String
  | .STOP => "STOP"
  | .SAFETY => "SAFETY"
  | .MAX_TOKENS => "MAX_TOKENS"
  | .RECITATION => "RECITATION"
  | .OTHER => "OTHER"

/-- `response.promptFeedback` of the model client. -/
structure PromptFeedback where
  blockReason : Option BlockReason
deriving DecidableEq

/-- One generation candidate of the model client. -/
structure Candidate where
  finishReason : Option FinishReason
deriving DecidableEq

/-- The `response` object of a model-client result: the text returned by
the `text()` helper (empty when nothing was generated), the prompt
feedback, and the candidate list. -/
structure GenResponse where
  text : String
  promptFeedback : Option PromptFeedback
  candidates : List Candidate
deriving DecidableEq

/-- The overall result object of `model.generateContent`; `response` may
be absent (`!result.response` in the handler). -/
structure GenResult where
  response : Option GenResponse
deriving DecidableEq

/-- A row inserted into the `chat_messages` table.  The success-path
insert omits `isError`, modeled by its default `false`; the error-path
insert sets `isError := true`. -/
structure ChatInsert where
  user_id : String
  user_query : String
  bot_response : String
  pdf_context_used : Bool
  isError : Bool := false
deriving DecidableEq

/-- The JSON body of an HTTP response of the chat endpoint: either
`{ reply }` or `{ error }`. -/
inductive RespBody where
  | reply (text : String)
  | error (message : String)
deriving DecidableEq

/-- An HTTP response: status code plus JSON body. -/
structure HttpResponse where
  status : Nat
  body : RespBody
deriving DecidableEq

/-- The observable outcome of one chat-handler invocation: the HTTP
response and the list of insert attempts, each paired with the storage
layer's reported success for that attempt. -/
structure ChatOutcome where
  response : HttpResponse
  writes : List (ChatInsert × Bool)
deriving DecidableEq

/-- Number of UTF-16 code units of a JavaScript string, modeled as the
length of the character list. -/
def jsLength (s : String) : Nat := s.data.length

/-- JavaScript `s.substring(0, n)`. -/
def jsSubstring0 (s : String) (n : Nat) : String := ⟨s.data.take n⟩

/-- `MAX_PDF_TEXT_LENGTH` of the chat handler. -/
def MAX_PDF_TEXT_LENGTH : Nat := 70000

/-- The truncation marker appended when the document text is cut off. -/
def truncMarker : String := "\n[...PDF text truncated due to length...]"

/-- `truncatedPdfText` of the chat handler: cut the document text to
`MAX_PDF_TEXT_LENGTH` code units and append the marker, or pass it through
unchanged when it is short enough. -/
def truncatedPdfText (pdfText : String) : String :=
  if jsLength pdfText > MAX_PDF_TEXT_LENGTH then
    jsSubstring0 pdfText MAX_PDF_TEXT_LENGTH ++ truncMarker
  else
    pdfText

/-- The fixed template text of the context prompt before the document
text. -/
def contextPromptHead : String :=
  "\n        Based on the following document text, please answer the user's question.\n        If the answer is not found in the document, state that explicitly.\n        Do not make up information not present in the document if the question implies it should come from the document.\n\n        Document Text:\n        ---\n        "

/-- The fixed template text of the context prompt between the document
text and the user question. -/
def contextPromptMid : String :=
  "\n        ---\n\n        User Question: "

/-- The fixed template text of the context prompt after the user
question. -/
def contextPromptEnd : String :=
  "\n\n        Answer:\n      "

/-- `fullPrompt` of the chat handler: the document-context template when
context is used, the bare-question template otherwise. -/
def buildPrompt (ctx : Bool) (pdfText query : String) : String :=
  if ctx then
    contextPromptHead ++ truncatedPdfText pdfText ++ contextPromptMid ++ query ++ contextPromptEnd
  else
    "User Question: " ++ query ++ "\nAnswer:"

/-- The validation test of the chat handler:
`!query || typeof query !== 'string' || query.trim() === ""`. -/
def queryInvalid (q : Option JVal) : Bool :=
  !optTruthy q || !optIsString q || jsTrim (optAsString q) == ""

/-- `wasPdfContextUsed` of the chat handler:
`pdfText && typeof pdfText === 'string' && pdfText.trim() !== ""`,
read as a boolean. -/
def wasPdfContextUsed (p : Option JVal) : Bool :=
  optTruthy p && optIsString p && jsTrim (optAsString p) != ""

/-- `originalUserQuery` after the body has been parsed:
`query || "User query not available in body"`. -/
def origQueryOf (q : Option JVal) : String :=
  if optTruthy q then optAsString q else "User query not available in body"

/-- The generic fallback error message of the chat handler's catch
block. -/
def genericChatError : String :=
  "An unexpected error occurred while processing your chat request."

/-- The initial value of `blockReasonMessage` in the empty-text branch. -/
def defaultBlockMsg : String := "Response generation failed or was blocked."

/-- Message for a safety block reported on the prompt. -/
def promptSafetyMsg : String :=
  "Your query was blocked due to safety concerns. Please rephrase."

/-- Message for a non-safety prompt block reason. -/
def promptIssueMsg (br : BlockReason) : String :=
  "There was an issue with the prompt. Reason: " ++ br.render ++ "."

/-- Message for a safety block reported on the generated candidate. -/
def candidateSafetyMsg : String :=
  "The generated response was blocked due to safety concerns. Please try a different query."

/-- Message for an abnormal (non-STOP) candidate finish reason. -/
def incompleteMsg (fr : FinishReason) : String :=
  "Response generation incomplete. Reason: " ++ fr.render ++ ". Try a shorter query or PDF."

/-- Message when the model returned empty text with no identifiable
reason. -/
def emptyRespMsg : String :=
  "I received an empty response from the AI. Could you try rephrasing?"

/-- The empty-text branch of the chat handler: inspect the prompt
feedback, then the first candidate's finish reason (the later check
overrides the earlier message), and fall back to a generic
empty-response internal failure when neither yields a reason.  Returns
the status code and the error message. -/
def classifyEmpty (resp : GenResponse) : Nat × String :=
  let msg1 :=
    match resp.promptFeedback with
    | some pf =>
      match pf.blockReason with
      | some .SAFETY => promptSafetyMsg
      | some br => promptIssueMsg br
      | none => defaultBlockMsg
    | none => defaultBlockMsg
  let msg2 :=
    match resp.candidates.head? with
    | some c =>
      match c.finishReason with
      | some .SAFETY => candidateSafetyMsg
      | some .STOP => msg1
      | some fr => incompleteMsg fr
      | none => msg1
    | none => msg1
  if msg2 == defaultBlockMsg then (500, emptyRespMsg) else (400, msg2)

/-- The catch block of the chat handler: pick the thrown error's message
when it is truthy, otherwise the generic message; when the caller identity
was already resolved, attempt one error-marked insert whose `bot_response`
is the message prefixed with "SYSTEM ERROR: " and whose
`pdf_context_used` is `false`; return status 500 with the message either
way. -/
def chatCatch (userIdForDb : Option String) (originalUserQuery : String)
    (e : Exn) (dbOkErr : Bool) : ChatOutcome :=
  let errorMessage := if e.message ≠ "" then e.message else genericChatError
  let writes :=
    match userIdForDb with
    | some uid =>
      [({ user_id := uid
          user_query := originalUserQuery
          bot_response := "SYSTEM ERROR: " ++ errorMessage
          pdf_context_used := false
          isError := true }, dbOkErr)]
    | none => []
  ⟨⟨500, .error errorMessage⟩, writes⟩

/-- The chat handler `POST` of `src/app/api/chat/route.ts`.
Inputs stand for the external collaborators: `hasApiKey` for the
environment check, `authUser` for `supabase.auth.getUser()` (the resolved
caller identity, if any), `body` for `request.json()` (which may throw),
`gen` for `model.generateContent` (which may throw), and
`dbOkMain`/`dbOkErr` for the storage layer's answers to the success-path
and error-path inserts. -/
def POST (hasApiKey : Bool) (authUser : Option String)
    (body : Except Exn ChatBody) (gen : Except Exn GenResult)
    (dbOkMain dbOkErr : Bool) : ChatOutcome :=
  if !hasApiKey then
    ⟨⟨500, .error "API configuration error. Please contact support."⟩, []⟩
  else
    match authUser with
    | none => ⟨⟨401, .error "Unauthorized: You must be logged in to chat."⟩, []⟩
    | some uid =>
      match body with
      | .error e => chatCatch (some uid) "User query not available" e dbOkErr
      | .ok b =>
        let originalUserQuery := origQueryOf b.query
        if queryInvalid b.query then
          ⟨⟨400, .error "Query is required and must be a non-empty string."⟩, []⟩
        else
          let query := optAsString b.query
          let ctx := wasPdfContextUsed b.pdfText
          match gen with
          | .error e => chatCatch (some uid) originalUserQuery e dbOkErr
          | .ok r =>
            match r.response with
            | none =>
              ⟨⟨500, .error "Gemini API communication error. No response object."⟩, []⟩
            | some resp =>
              if resp.text == "" then
                ⟨⟨(classifyEmpty resp).1, .error (classifyEmpty resp).2⟩, []⟩
              else
                ⟨⟨200, .reply resp.text⟩,
                 [({ user_id := uid
                     user_query := query
                     bot_response := resp.text
                     pdf_context_used := ctx }, dbOkMain)]⟩

/-- A stored `chat_messages` row as selected by the history handler. -/
structure ChatRow where
  id : String
  created_at : Nat
  user_query : String
  bot_response : String
  pdf_context_used : Bool
deriving DecidableEq

/-- Message role of a display message. -/
inductive Sender where
  | user
  | bot
deriving DecidableEq

/-- A display message produced by the history handler's transform. -/
structure DisplayMessage where
  id : String
  text : String
  sender : Sender
  pdfContextUsed : Option Bool := none
  timestamp : Nat
deriving DecidableEq

/-- The user-side display message synthesized from one stored row. -/
def userMsgOf (msg : ChatRow) : DisplayMessage :=
  { id := msg.id ++ "-user"
    text := msg.user_query
    sender := .user
    timestamp := msg.created_at }

/-- The bot-side display message synthesized from one stored row. -/
def botMsgOf (msg : ChatRow) : DisplayMessage :=
  { id := msg.id ++ "-bot"
    text := msg.bot_response
    sender := .bot
    pdfContextUsed := some msg.pdf_context_used
    timestamp := msg.created_at }

/-- The per-row pair of the history handler's `map`. -/
def rowToMessages (msg : ChatRow) : List DisplayMessage :=
  [userMsgOf msg, botMsgOf msg]

/-- `chatMessages.map(...).flat()` of the history handler. -/
def buildHistory (rows : List ChatRow) : List DisplayMessage :=
  (rows.map rowToMessages).flatten

/-- A storage-layer error, with its `.message`. -/
structure DbErr where
  message : String
deriving DecidableEq

/-- The JSON body of an HTTP response of the history endpoint. -/
inductive HistBody where
  | history (msgs : List DisplayMessage)
  | error (message : String)
deriving DecidableEq

/-- An HTTP response of the history endpoint. -/
structure HistResponse where
  status : Nat
  body : HistBody
deriving DecidableEq

/-- The history handler `GET` of `src/app/api/chat-history/route.ts`.
`authUser` stands for the resolved caller identity; `fetched` stands for
the storage read of the caller's rows, ordered ascending by
`created_at`. -/
def GET (authUser : Option String)
    (fetched : Except DbErr (List ChatRow)) : HistResponse :=
  match authUser with
  | none => ⟨401, .error "Unauthorized: You must be logged in to view chat history."⟩
  | some _ =>
    match fetched with
    | .error e => ⟨500, .error ("Failed to fetch chat history. " ++ e.message)⟩
    | .ok rows => ⟨200, .history (buildHistory rows)⟩

/-- A message held in the client's `messages` state, with the fields the
merge inspects (identifier and timestamp) plus its text. -/
structure ClientMessage where
  id : String
  timestamp : Nat
  text : String := ""
deriving DecidableEq

/-- The timestamp-ascending comparison of the client's
`combined.sort((a, b) => ...getTime() - ...getTime())`. -/
def tsLe (a b : ClientMessage) : Prop := a.timestamp ≤ b.timestamp

instance : DecidableRel tsLe := fun a b => Nat.decLe a.timestamp b.timestamp

instance : IsTotal ClientMessage tsLe := ⟨fun a b => Nat.le_total a.timestamp b.timestamp⟩

instance : IsTrans ClientMessage tsLe := ⟨fun _ _ _ => Nat.le_trans⟩

/-- The client-side merge inside `fetchChatHistory`: drop fetched history
messages whose identifier is already displayed, put the remaining history
messages before the displayed messages, and stable-sort the combination
by timestamp ascending (`Array.sort` is stable; `List.insertionSort` is
the stable sort for this comparator). -/
def mergeHistory (historyMessages prevMessages : List ClientMessage) : List ClientMessage :=
  let existingIds := prevMessages.map (fun m => m.id)
  let uniqueHistoryMessages :=
    historyMessages.filter (fun h => !(existingIds.contains h.id))
  let combined := uniqueHistoryMessages ++ prevMessages
  combined.insertionSort tsLe

/-! Helper lemmas -/

/-- Unfolding `buildHistory` on a cons: one row contributes its user-side
message followed by its bot-side message. -/
theorem buildHistory_cons (r : ChatRow) (rows : List ChatRow) :
    buildHistory (r :: rows) = userMsgOf r :: botMsgOf r :: buildHistory rows := by
  simp [buildHistory, rowToMessages]

/-- The context-used flag holds exactly when the supplied `pdfText` field
is a string that is non-empty after trimming. -/
theorem wasPdfContextUsed_iff (p : Option JVal) :
    wasPdfContextUsed p = true ↔ ∃ s, p = some (.jstr s) ∧ jsTrim s ≠ "" := by
  cases p with
  | none => simp [wasPdfContextUsed, optTruthy, optIsString]
  | some v =>
    cases v with
    | jstr s =>
      simp only [wasPdfContextUsed, optTruthy, optIsString, optAsString,
        JVal.truthy, JVal.isStringVal, JVal.asString, Bool.and_eq_true,
        bne_iff_ne, ne_eq, decide_eq_true_eq, Bool.and_true, and_true]
      constructor
      · rintro ⟨-, h⟩
        exact ⟨s, rfl, h⟩
      · rintro ⟨t, ht, h⟩
        cases ht
        refine ⟨fun hs => h ?_, h⟩
        rw [hs]
        rfl
    | jnum n => simp [wasPdfContextUsed, optTruthy, optIsString, JVal.isStringVal]
    | jbool b => simp [wasPdfContextUsed, optTruthy, optIsString, JVal.isStringVal]
    | jnull => simp [wasPdfContextUsed, optTruthy, optIsString, JVal.isStringVal]

/-! Claim theorems -/

/-- Claim C1: for every sequence of records fetched for a caller, the
history handler succeeds with exactly two display messages per record:
the message at index `2*i` is the user-role message of record `i` and the
message at index `2*i + 1` is the bot-role message of record `i`, both
carrying record `i`'s timestamp; zero records give an empty sequence, not
an error. -/
theorem C1_history_reconstruction (uid : String) (rows : List ChatRow) :
    GET (some uid) (.ok rows) = ⟨200, .history (buildHistory rows)⟩ ∧
    GET (some uid) (.ok []) = ⟨200, .history []⟩ ∧
    (buildHistory rows).length = 2 * rows.length ∧
    ∀ i, (h : i < rows.length) →
      (buildHistory rows)[2 * i]? = some (userMsgOf (rows.get ⟨i, h⟩)) ∧
      (buildHistory rows)[2 * i + 1]? = some (botMsgOf (rows.get ⟨i, h⟩)) := by
  refine ⟨rfl, rfl, ?_, ?_⟩
  · induction rows with
    | nil => simp [buildHistory]
    | cons r rs ih =>
      rw [buildHistory_cons]
      simp only [List.length_cons, ih]
      omega
  · induction rows with
    | nil =>
      intro i h
      exact absurd h (by simp)
    | cons r rs ih =>
      intro i h
      match i with
      | 0 =>
        exact ⟨by simp [buildHistory_cons], by simp [buildHistory_cons]⟩
      | n + 1 =>
        have h' : n < rs.length := Nat.lt_of_succ_lt_succ h
        have hrec := ih n h'
        rw [buildHistory_cons]
        have e1 : 2 * (n + 1) = 2 * n + 1 + 1 := by omega
        have e2 : 2 * (n + 1) + 1 = (2 * n + 1) + 1 + 1 := by omega
        constructor
        · rw [e1, List.getElem?_cons_succ, List.getElem?_cons_succ]
          exact hrec.1
        · rw [e2, List.getElem?_cons_succ, List.getElem?_cons_succ]
          exact hrec.2

/-- Witness for C1 at two concrete records, checking the pair at index
`i = 1`. -/
theorem C1_history_reconstruction_witness :
    (buildHistory [⟨"a", 5, "q1", "r1", false⟩, ⟨"b", 7, "q2", "r2", true⟩])[2 * 1]? =
      some (userMsgOf ⟨"b", 7, "q2", "r2", true⟩) ∧
    (buildHistory [⟨"a", 5, "q1", "r1", false⟩, ⟨"b", 7, "q2", "r2", true⟩])[2 * 1 + 1]? =
      some (botMsgOf ⟨"b", 7, "q2", "r2", true⟩) :=
  (C1_history_reconstruction "u"
    [⟨"a", 5, "q1", "r1", false⟩, ⟨"b", 7, "q2", "r2", true⟩]).2.2.2 1 (by decide)

/-- Claim C2: when the supplied document text is longer than the fixed
maximum of 70000 code units, the embedded text is the 70000-unit cut and
the prompt contains the truncation marker; at or below the maximum the
text passes through unmodified, so the prompt is the template with the
document text itself and no marker is appended. -/
theorem C2_prompt_truncation (pdfText query : String) :
    (jsLength pdfText > MAX_PDF_TEXT_LENGTH →
      truncatedPdfText pdfText = jsSubstring0 pdfText MAX_PDF_TEXT_LENGTH ++ truncMarker ∧
      jsLength (jsSubstring0 pdfText MAX_PDF_TEXT_LENGTH) = MAX_PDF_TEXT_LENGTH ∧
      truncMarker.data <:+: (buildPrompt true pdfText query).data) ∧
    (jsLength pdfText ≤ MAX_PDF_TEXT_LENGTH →
      truncatedPdfText pdfText = pdfText ∧
      buildPrompt true pdfText query =
        contextPromptHead ++ pdfText ++ contextPromptMid ++ query ++ contextPromptEnd) := by
  constructor
  · intro hlong
    have hlong' : MAX_PDF_TEXT_LENGTH < pdfText.data.length := hlong
    have htr : truncatedPdfText pdfText =
        jsSubstring0 pdfText MAX_PDF_TEXT_LENGTH ++ truncMarker := by
      simp [truncatedPdfText, hlong]
    refine ⟨htr, ?_, ?_⟩
    · simp only [jsLength, jsSubstring0, List.length_take]
      omega
    · refine ⟨contextPromptHead.data ++ (jsSubstring0 pdfText MAX_PDF_TEXT_LENGTH).data,
        contextPromptMid.data ++ query.data ++ contextPromptEnd.data, ?_⟩
      simp [buildPrompt, htr, String.data_append, List.append_assoc]
  · intro hshort
    have hshort' : pdfText.data.length ≤ MAX_PDF_TEXT_LENGTH := hshort
    have hn : ¬ (jsLength pdfText > MAX_PDF_TEXT_LENGTH) := by
      simp only [jsLength, gt_iff_lt, not_lt]
      exact hshort'
    have htr : truncatedPdfText pdfText = pdfText := by
      simp [truncatedPdfText, hn]
    exact ⟨htr, by simp [buildPrompt, htr]⟩

/-- Witness for C2 at a concrete 70001-character document text. -/
theorem C2_prompt_truncation_witness :
    jsLength ⟨List.replicate 70001 'a'⟩ > MAX_PDF_TEXT_LENGTH ∧
    (truncatedPdfText ⟨List.replicate 70001 'a'⟩ =
        jsSubstring0 ⟨List.replicate 70001 'a'⟩ MAX_PDF_TEXT_LENGTH ++ truncMarker ∧
      jsLength (jsSubstring0 ⟨List.replicate 70001 'a'⟩ MAX_PDF_TEXT_LENGTH) =
        MAX_PDF_TEXT_LENGTH ∧
      truncMarker.data <:+: (buildPrompt true ⟨List.replicate 70001 'a'⟩ "q").data) :=
  have hbig : jsLength ⟨List.replicate 70001 'a'⟩ > MAX_PDF_TEXT_LENGTH := by
    show (List.replicate 70001 'a').length > 70000
    rw [List.length_replicate]
    omega
  ⟨hbig, (C2_prompt_truncation ⟨List.replicate 70001 'a'⟩ "q").1 hbig⟩

/-- Claim C3: on a turn where the model returns non-empty text, exactly
one record insert is attempted, with the caller as owner, the submitted
query, the generated text, and the context flag equal to whether document
text was supplied and non-empty after trimming. -/
theorem C3_success_persists_one_record (uid : String) (b : ChatBody) (r : GenResult)
    (resp : GenResponse) (dbOkMain dbOkErr : Bool)
    (hq : queryInvalid b.query = false) (hr : r.response = some resp)
    (ht : resp.text ≠ "") :
    (POST true (some uid) (.ok b) (.ok r) dbOkMain dbOkErr).writes.map Prod.fst =
      [{ user_id := uid
         user_query := optAsString b.query
         bot_response := resp.text
         pdf_context_used := wasPdfContextUsed b.pdfText }] ∧
    (wasPdfContextUsed b.pdfText = true ↔
      ∃ s, b.pdfText = some (.jstr s) ∧ jsTrim s ≠ "") := by
  constructor
  · simp [POST, hq, hr, ht]
  · exact wasPdfContextUsed_iff b.pdfText

/-- Witness for C3 at a concrete request and model reply. -/
theorem C3_success_persists_one_record_witness :
    queryInvalid (some (.jstr "What is the capital of France?")) = false ∧
    ((POST true (some "u1")
        (.ok ⟨some (.jstr "What is the capital of France?"), none⟩)
        (.ok ⟨some ⟨"Paris.", none, []⟩⟩) true true).writes.map Prod.fst =
      [{ user_id := "u1"
         user_query := optAsString (some (.jstr "What is the capital of France?"))
         bot_response := "Paris."
         pdf_context_used := wasPdfContextUsed none }] ∧
      (wasPdfContextUsed (none : Option JVal) = true ↔
        ∃ s, (none : Option JVal) = some (.jstr s) ∧ jsTrim s ≠ "")) :=
  ⟨by decide,
   C3_success_persists_one_record "u1"
     ⟨some (.jstr "What is the capital of France?"), none⟩
     ⟨some ⟨"Paris.", none, []⟩⟩ ⟨"Paris.", none, []⟩ true true
     (by decide) rfl (by decide)⟩

/-- Claim C4: with no resolvable caller identity, the chat handler
answers 401 with no insert attempted, and the history handler answers
401, whatever the request body, model, or storage would have done. -/
theorem C4_unauthorized_no_writes (body : Except Exn ChatBody)
    (gen : Except Exn GenResult) (dbOkMain dbOkErr : Bool)
    (fetched : Except DbErr (List ChatRow)) :
    (POST true none body gen dbOkMain dbOkErr).response.status = 401 ∧
    (POST true none body gen dbOkMain dbOkErr).writes = [] ∧
    (GET none fetched).status = 401 :=
  ⟨rfl, rfl, rfl⟩

/-- Counterexample to claim C5 as stated: internal failures do surface
internal diagnostic detail.  A thrown error inside the chat handler is
echoed verbatim to the caller instead of the fixed generic message, and a
storage failure in the history handler is echoed with the database
error's message appended. -/
theorem C5_counterexample :
    (POST true (some "u1") (.ok ⟨some (.jstr "hi"), none⟩)
        (.error ⟨"connect ECONNREFUSED db.internal:5432"⟩) true true).response =
      ⟨500, .error "connect ECONNREFUSED db.internal:5432"⟩ ∧
    "connect ECONNREFUSED db.internal:5432" ≠ genericChatError ∧
    (GET (some "u1") (.error ⟨"permission denied for table chat_messages"⟩)).body =
      .error "Failed to fetch chat history. permission denied for table chat_messages" := by
  refine ⟨by decide, by decide, by decide⟩

/-- Claim C5 as amended: internal failures surface status 500, but the
message is generic only as a fallback.  The chat handler surfaces the
thrown error's own message whenever it is non-empty, and the history
handler surfaces the fixed prefix followed by the database error's
message. -/
theorem C5_amended_internal_messages (uid : String) (b : ChatBody) (e : Exn)
    (f : DbErr) (dbOkMain dbOkErr : Bool) (hq : queryInvalid b.query = false) :
    (POST true (some uid) (.ok b) (.error e) dbOkMain dbOkErr).response =
      ⟨500, .error (if e.message ≠ "" then e.message else genericChatError)⟩ ∧
    GET (some uid) (.error f) =
      ⟨500, .error ("Failed to fetch chat history. " ++ f.message)⟩ := by
  constructor
  · simp [POST, hq, chatCatch]
  · rfl

/-- Witness for the amended C5 at a concrete exception and database
error. -/
theorem C5_amended_internal_messages_witness :
    queryInvalid (some (.jstr "hi")) = false ∧
    ((POST true (some "u1") (.ok ⟨some (.jstr "hi"), none⟩)
        (.error ⟨"boom"⟩) true true).response =
      ⟨500, .error (if ("boom" : String) ≠ "" then "boom" else genericChatError)⟩ ∧
      GET (some "u1") (.error ⟨"db down"⟩) =
        ⟨500, .error ("Failed to fetch chat history. " ++ "db down")⟩) :=
  ⟨by decide,
   C5_amended_internal_messages "u1" ⟨some (.jstr "hi"), none⟩ ⟨"boom"⟩ ⟨"db down"⟩
     true true (by decide)⟩

/-- The finish reason of the first candidate, as the handler reads it. -/
def candFinish (resp : GenResponse) : Option FinishReason :=
  resp.candidates.head?.bind (fun c => c.finishReason)

/-- The prompt-level block reason, as the handler reads it. -/
def promptBlock (resp : GenResponse) : Option BlockReason :=
  resp.promptFeedback.bind (fun pf => pf.blockReason)

/-- Empty-text classification when the first candidate reports a safety
finish reason. -/
theorem classifyEmpty_cand_safety (resp : GenResponse)
    (hc : candFinish resp = some .SAFETY) :
    classifyEmpty resp = (400, candidateSafetyMsg) := by
  obtain ⟨c, hc1, hc2⟩ := Option.bind_eq_some.mp hc
  simp only [classifyEmpty, hc1, hc2]
  decide

/-- Empty-text classification when the first candidate reports an
abnormal finish reason other than STOP and SAFETY. -/
theorem classifyEmpty_cand_abnormal (resp : GenResponse) (fr : FinishReason)
    (hc : candFinish resp = some fr) (hstop : fr ≠ .STOP) (hsafe : fr ≠ .SAFETY) :
    classifyEmpty resp = (400, incompleteMsg fr) := by
  obtain ⟨c, hc1, hc2⟩ := Option.bind_eq_some.mp hc
  cases fr with
  | STOP => exact absurd rfl hstop
  | SAFETY => exact absurd rfl hsafe
  | MAX_TOKENS =>
    simp only [classifyEmpty, hc1, hc2]
    decide
  | RECITATION =>
    simp only [classifyEmpty, hc1, hc2]
    decide
  | OTHER =>
    simp only [classifyEmpty, hc1, hc2]
    decide

/-- Empty-text classification when the candidate side is normal (no first
candidate, no finish reason, or a plain STOP) and the prompt was blocked
for safety. -/
theorem classifyEmpty_prompt_safety (resp : GenResponse)
    (hfin : candFinish resp = none ∨ candFinish resp = some .STOP)
    (hpb : promptBlock resp = some .SAFETY) :
    classifyEmpty resp = (400, promptSafetyMsg) := by
  obtain ⟨pf, hp, hb⟩ := Option.bind_eq_some.mp hpb
  cases hh : resp.candidates.head? with
  | none =>
    simp only [classifyEmpty, hp, hb, hh]
    decide
  | some c =>
    have hcf : c.finishReason = none ∨ c.finishReason = some .STOP := by
      rcases hfin with hfin | hfin
      · simp only [candFinish, hh, Option.some_bind] at hfin
        exact Or.inl hfin
      · simp only [candFinish, hh, Option.some_bind] at hfin
        exact Or.inr hfin
    rcases hcf with hcf | hcf
    · simp only [classifyEmpty, hp, hb, hh, hcf]
      decide
    · simp only [classifyEmpty, hp, hb, hh, hcf]
      decide

/-- Empty-text classification when neither the prompt feedback nor the
first candidate yields any reason: the generic internal empty-response
failure. -/
theorem classifyEmpty_no_reason (resp : GenResponse)
    (hfin : candFinish resp = none ∨ candFinish resp = some .STOP)
    (hpb : promptBlock resp = none) :
    classifyEmpty resp = (500, emptyRespMsg) := by
  have hpf : resp.promptFeedback = none ∨
      ∃ pf, resp.promptFeedback = some pf ∧ pf.blockReason = none := by
    cases hp : resp.promptFeedback with
    | none => exact Or.inl rfl
    | some pf =>
      refine Or.inr ⟨pf, rfl, ?_⟩
      have h := hpb
      simp only [promptBlock, hp, Option.some_bind] at h
      exact h
  have hcands : resp.candidates.head? = none ∨
      (∃ c, resp.candidates.head? = some c ∧
        (c.finishReason = none ∨ c.finishReason = some .STOP)) := by
    cases hh : resp.candidates.head? with
    | none => exact Or.inl rfl
    | some c =>
      refine Or.inr ⟨c, rfl, ?_⟩
      rcases hfin with hfin | hfin
      · simp only [candFinish, hh, Option.some_bind] at hfin
        exact Or.inl hfin
      · simp only [candFinish, hh, Option.some_bind] at hfin
        exact Or.inr hfin
  rcases hpf with hp | ⟨pf, hp, hb⟩
  · rcases hcands with hh | ⟨c, hh, hcf⟩
    · simp only [classifyEmpty, hp, hh]
      decide
    · rcases hcf with hcf | hcf
      · simp only [classifyEmpty, hp, hh, hcf]
        decide
      · simp only [classifyEmpty, hp, hh, hcf]
        decide
  · rcases hcands with hh | ⟨c, hh, hcf⟩
    · simp only [classifyEmpty, hp, hb, hh]
      decide
    · rcases hcf with hcf | hcf
      · simp only [classifyEmpty, hp, hb, hh, hcf]
        decide
      · simp only [classifyEmpty, hp, hb, hh, hcf]
        decide

/-- Claim C6: when the model returns empty text, a safety block on the
candidate yields 400 with the candidate-safety message, an abnormal
non-STOP finish reason yields 400 with the incomplete-generation message,
a safety block on the prompt (with a normal candidate side) yields 400
with the prompt-safety message, and no identifiable reason yields 500
with the generic empty-response message; no insert is attempted. -/
theorem C6_empty_text_classification (uid : String) (b : ChatBody) (r : GenResult)
    (resp : GenResponse) (dbOkMain dbOkErr : Bool)
    (hq : queryInvalid b.query = false) (hr : r.response = some resp)
    (ht : resp.text = "") :
    (POST true (some uid) (.ok b) (.ok r) dbOkMain dbOkErr).writes = [] ∧
    (candFinish resp = some .SAFETY →
      (POST true (some uid) (.ok b) (.ok r) dbOkMain dbOkErr).response =
        ⟨400, .error candidateSafetyMsg⟩) ∧
    (∀ fr, candFinish resp = some fr → fr ≠ .STOP → fr ≠ .SAFETY →
      (POST true (some uid) (.ok b) (.ok r) dbOkMain dbOkErr).response =
        ⟨400, .error (incompleteMsg fr)⟩) ∧
    ((candFinish resp = none ∨ candFinish resp = some .STOP) →
      promptBlock resp = some .SAFETY →
      (POST true (some uid) (.ok b) (.ok r) dbOkMain dbOkErr).response =
        ⟨400, .error promptSafetyMsg⟩) ∧
    ((candFinish resp = none ∨ candFinish resp = some .STOP) →
      promptBlock resp = none →
      (POST true (some uid) (.ok b) (.ok r) dbOkMain dbOkErr).response =
        ⟨500, .error emptyRespMsg⟩) := by
  have hpost : POST true (some uid) (.ok b) (.ok r) dbOkMain dbOkErr =
      ⟨⟨(classifyEmpty resp).1, .error (classifyEmpty resp).2⟩, []⟩ := by
    simp [POST, hq, hr, ht]
  refine ⟨by rw [hpost], ?_, ?_, ?_, ?_⟩
  · intro hc
    rw [hpost, classifyEmpty_cand_safety resp hc]
  · intro fr hc hstop hsafe
    rw [hpost, classifyEmpty_cand_abnormal resp fr hc hstop hsafe]
  · intro hfin hpb
    rw [hpost, classifyEmpty_prompt_safety resp hfin hpb]
  · intro hfin hpb
    rw [hpost, classifyEmpty_no_reason resp hfin hpb]

/-- Witness for C6: a prompt-level safety block with empty text yields
the 400 safety answer at a concrete request. -/
theorem C6_empty_text_classification_witness :
    queryInvalid (some (.jstr "hi")) = false ∧
    (POST true (some "u1") (.ok ⟨some (.jstr "hi"), none⟩)
        (.ok ⟨some ⟨"", some ⟨some .SAFETY⟩, []⟩⟩) true true).response =
      ⟨400, .error promptSafetyMsg⟩ :=
  ⟨by decide,
   (C6_empty_text_classification "u1" ⟨some (.jstr "hi"), none⟩
      ⟨some ⟨"", some ⟨some .SAFETY⟩, []⟩⟩ ⟨"", some ⟨some .SAFETY⟩, []⟩ true true
      (by decide) rfl rfl).2.2.2.1 (Or.inl rfl) rfl⟩

/-- Claim C7: on a turn where the model returns non-empty text, the
caller receives the generated reply with status 200, and this response is
the same whatever the storage layer answers to the insert attempt. -/
theorem C7_reply_decoupled_from_storage (uid : String) (b : ChatBody)
    (r : GenResult) (resp : GenResponse) (dbOkMain dbOkMain' dbOkErr dbOkErr' : Bool)
    (hq : queryInvalid b.query = false) (hr : r.response = some resp)
    (ht : resp.text ≠ "") :
    (POST true (some uid) (.ok b) (.ok r) dbOkMain dbOkErr).response =
      ⟨200, .reply resp.text⟩ ∧
    (POST true (some uid) (.ok b) (.ok r) dbOkMain dbOkErr).response =
      (POST true (some uid) (.ok b) (.ok r) dbOkMain' dbOkErr').response := by
  constructor
  · simp [POST, hq, hr, ht]
  · simp [POST, hq, hr, ht]

/-- Witness for C7 at a concrete request and model reply, with the
storage layer failing on one side and succeeding on the other. -/
theorem C7_reply_decoupled_from_storage_witness :
    queryInvalid (some (.jstr "hi")) = false ∧
    ((POST true (some "u1") (.ok ⟨some (.jstr "hi"), none⟩)
        (.ok ⟨some ⟨"Hello!", none, []⟩⟩) false true).response =
      ⟨200, .reply "Hello!"⟩ ∧
    (POST true (some "u1") (.ok ⟨some (.jstr "hi"), none⟩)
        (.ok ⟨some ⟨"Hello!", none, []⟩⟩) false true).response =
      (POST true (some "u1") (.ok ⟨some (.jstr "hi"), none⟩)
        (.ok ⟨some ⟨"Hello!", none, []⟩⟩) true false).response) :=
  ⟨by decide,
   C7_reply_decoupled_from_storage "u1" ⟨some (.jstr "hi"), none⟩
     ⟨some ⟨"Hello!", none, []⟩⟩ ⟨"Hello!", none, []⟩ false true true false
     (by decide) rfl (by decide)⟩

/-- Claim C8: when the chat handler fails unexpectedly after the caller
identity was resolved (a body-parse throw or a model-call throw), exactly
one error-marked insert is attempted, owned by the caller, with the error
message prefixed by "SYSTEM ERROR: " as `bot_response` and
`pdf_context_used` false; the response is the 500 failure either way, and
the sentinel write's own failure is swallowed (the response does not
depend on the storage layer's answer). -/
theorem C8_error_sentinel_write (uid : String) (b : ChatBody) (e : Exn)
    (gen : Except Exn GenResult) (dbOkMain dbOkErr dbOkErr' : Bool)
    (hq : queryInvalid b.query = false) :
    ((POST true (some uid) (.ok b) (.error e) dbOkMain dbOkErr).writes.map Prod.fst =
      [{ user_id := uid
         user_query := origQueryOf b.query
         bot_response := "SYSTEM ERROR: " ++ (if e.message ≠ "" then e.message else genericChatError)
         pdf_context_used := false
         isError := true }]) ∧
    ((POST true (some uid) (.ok b) (.error e) dbOkMain dbOkErr).response =
      ⟨500, .error (if e.message ≠ "" then e.message else genericChatError)⟩) ∧
    ((POST true (some uid) (.error e) gen dbOkMain dbOkErr).writes.map Prod.fst =
      [{ user_id := uid
         user_query := "User query not available"
         bot_response := "SYSTEM ERROR: " ++ (if e.message ≠ "" then e.message else genericChatError)
         pdf_context_used := false
         isError := true }]) ∧
    ((POST true (some uid) (.ok b) (.error e) dbOkMain dbOkErr).response =
      (POST true (some uid) (.ok b) (.error e) dbOkMain dbOkErr').response) := by
  refine ⟨?_, ?_, ?_, ?_⟩
  · simp [POST, hq, chatCatch]
  · simp [POST, hq, chatCatch]
  · simp [POST, chatCatch]
  · simp [POST, hq, chatCatch]

/-- Witness for C8 at a concrete request and thrown error. -/
theorem C8_error_sentinel_write_witness :
    queryInvalid (some (.jstr "hi")) = false ∧
    ((POST true (some "u1") (.ok ⟨some (.jstr "hi"), none⟩)
        (.error ⟨"boom"⟩) true false).writes.map Prod.fst =
      [{ user_id := "u1"
         user_query := origQueryOf (some (.jstr "hi"))
         bot_response := "SYSTEM ERROR: " ++ (if ("boom" : String) ≠ "" then "boom" else genericChatError)
         pdf_context_used := false
         isError := true }]) :=
  ⟨by decide,
   (C8_error_sentinel_write "u1" ⟨some (.jstr "hi"), none⟩ ⟨"boom"⟩
     (.ok ⟨none⟩) true false false (by decide)).1⟩

/-- Claim C10: the identity check precedes body parsing and query
validation, so a request without a resolvable caller identity is answered
401 whatever the body (even a malformed body or an empty query), and in
particular never 400. -/
theorem C10_auth_precedes_validation (body : Except Exn ChatBody)
    (gen : Except Exn GenResult) (dbOkMain dbOkErr : Bool) :
    (POST true none body gen dbOkMain dbOkErr).response =
      ⟨401, .error "Unauthorized: You must be logged in to chat."⟩ ∧
    (POST true none body gen dbOkMain dbOkErr).response.status ≠ 400 :=
  ⟨rfl, by
    show (401 : Nat) ≠ 400
    decide⟩

/-- Counterexample to claim C9 as stated: the merge re-sorts the whole
combination by timestamp, so when the displayed list is not already in
timestamp order, the relative order of displayed messages is changed even
by a merge with no history at all.  With displayed messages at timestamps
2 then 1 and an empty fetch, the merged list swaps them, so the displayed
list is no longer a subsequence of the result. -/
theorem C9_counterexample :
    mergeHistory [] [⟨"a", 2, "x"⟩, ⟨"b", 1, "y"⟩] = [⟨"b", 1, "y"⟩, ⟨"a", 2, "x"⟩] ∧
    ¬ List.Sublist [⟨"a", 2, "x"⟩, ⟨"b", 1, "y"⟩]
        (mergeHistory [] [⟨"a", 2, "x"⟩, ⟨"b", 1, "y"⟩]) := by
  constructor
  · decide
  · decide

/-- Claim C9 as amended: provided the displayed message list is already
sorted ascending by timestamp (which the client maintains), the merge
produces a permutation of the displayed messages plus exactly those
fetched history messages whose identifier is not already displayed, the
result is sorted ascending by timestamp, and the displayed messages keep
their relative order (they form a subsequence of the result). -/
theorem C9_merge_amended (historyMessages prevMessages : List ClientMessage)
    (hs : prevMessages.Pairwise tsLe) :
    List.Perm (mergeHistory historyMessages prevMessages)
      ((historyMessages.filter
          (fun h => !((prevMessages.map (fun m => m.id)).contains h.id))) ++
        prevMessages) ∧
    (mergeHistory historyMessages prevMessages).Sorted tsLe ∧
    List.Sublist prevMessages (mergeHistory historyMessages prevMessages) := by
  refine ⟨?_, ?_, ?_⟩
  · exact List.perm_insertionSort tsLe _
  · exact List.sorted_insertionSort tsLe _
  · exact List.sublist_insertionSort hs (List.sublist_append_right _ _)

/-- Witness for the amended C9 at concrete lists: one fetched message is
new, one duplicates a displayed identifier. -/
theorem C9_merge_amended_witness :
    ([⟨"p1", 1, "u"⟩, ⟨"p2", 3, "v"⟩] : List ClientMessage).Pairwise tsLe ∧
    (List.Perm (mergeHistory [⟨"h1", 2, "w"⟩, ⟨"p1", 1, "z"⟩] [⟨"p1", 1, "u"⟩, ⟨"p2", 3, "v"⟩])
      (([⟨"h1", 2, "w"⟩, ⟨"p1", 1, "z"⟩].filter
          (fun h => !((([⟨"p1", 1, "u"⟩, ⟨"p2", 3, "v"⟩] : List ClientMessage).map
            (fun m => m.id)).contains h.id))) ++
        [⟨"p1", 1, "u"⟩, ⟨"p2", 3, "v"⟩]) ∧
    (mergeHistory [⟨"h1", 2, "w"⟩, ⟨"p1", 1, "z"⟩] [⟨"p1", 1, "u"⟩, ⟨"p2", 3, "v"⟩]).Sorted tsLe ∧
    List.Sublist [⟨"p1", 1, "u"⟩, ⟨"p2", 3, "v"⟩]
      (mergeHistory [⟨"h1", 2, "w"⟩, ⟨"p1", 1, "z"⟩] [⟨"p1", 1, "u"⟩, ⟨"p2", 3, "v"⟩])) :=
  ⟨by decide,
   C9_merge_amended [⟨"h1", 2, "w"⟩, ⟨"p1", 1, "z"⟩] [⟨"p1", 1, "u"⟩, ⟨"p2", 3, "v"⟩]
     (by decide)⟩

end GeminiPdfChat
